import Mathlib

set_option maxHeartbeats 2000000

/-
Verification of the slack-channel-exporter core (src/main.py) against its
natural-language specification.  The Python functions are shallowly embedded
as Lean functions; the Slack transport client is modelled by explicit
behaviour values (one per call), Python dicts by insertion-ordered
association lists, Python sets by duplicate-free lists in an arbitrary
iteration order, and raised exceptions by `Except` results.
-/

/-- Pydantic model `UserInfo` (src/main.py lines 138-141). -/
structure UserInfo where
  name : String
  display_name : String
deriving Repr, DecidableEq

/-- A raw Slack message dictionary as returned by the transport.  Only the
keys read by src/main.py are modelled (`ts`, `user`, `text`, `thread_ts`);
`none` models an absent key. -/
structure RawMessage where
  ts : Option String := none
  user : Option String := none
  text : Option String := none
  thread_ts : Option String := none
deriving Repr, DecidableEq

/-- Python `x or dflt` where `x` is an optional string (absent keys and the
empty string are falsy). -/
def pyOrStr (x : Option String) (dflt : String) : String :=
  match x with
  | none => dflt
  | some s => if s = "" then dflt else s

/-- The `user` object of a `users_info` response as read by src/main.py
lines 260-264: `user.get("name", "")`, `profile.get("real_name")`,
`profile.get("display_name")`.  An absent `profile` dictionary is modelled
by both profile fields being absent. -/
structure SlackUserObj where
  name : Option String := none
  real_name : Option String := none
  display_name : Option String := none
deriving Repr, DecidableEq

/-- Behaviour of one `client.users_info(user=user_id)` call: a well-formed
response with `ok == True` carrying the user object, a well-formed response
with `ok == False`, or a raised `SlackApiError`. -/
inductive LookupOutcome where
  | ok (user : SlackUserObj)
  | notOk
  | apiError
deriving Repr, DecidableEq

/-- Python dict assignment `d[k] = v` on an insertion-ordered association
list: an existing key keeps its position and gets the new value, a new key
is appended. -/
def dictSet {α : Type} : List (String × α) → String → α → List (String × α)
  | [], k, v => [(k, v)]
  | (k0, v0) :: rest, k, v =>
      if k0 = k then (k0, v) :: rest else (k0, v0) :: dictSet rest k v

/-- Python dict lookup `d[k]` / `d.get(k)`. -/
def dictFind {α : Type} : List (String × α) → String → Option α
  | [], _ => none
  | (k0, v0) :: rest, k => if k0 = k then some v0 else dictFind rest k

/-- The keys of a dict, in insertion order. -/
def dictKeys {α : Type} (d : List (String × α)) : List String :=
  d.map Prod.fst

/-- The `UserInfo` built from a successful `users_info` response
(src/main.py lines 260-265): `name` is `user.get("name", "") or ""` and
`display_name` is `profile.get("real_name") or profile.get("display_name")
or ""`. -/
def userInfoOfObj (u : SlackUserObj) : UserInfo :=
  { name := pyOrStr u.name ""
    display_name := pyOrStr u.real_name (pyOrStr u.display_name "") }

/-- Loop body of `fetch_user_info` (src/main.py lines 255-270), one step per
`user_id`: a successful response stores the resolved `UserInfo`, a response
with `ok == False` stores nothing, and a raised `SlackApiError` stores the
`Unknown User` sentinel.  `lookup` is the behaviour of `client.users_info`
for each identifier. -/
def fetch_user_info_go (lookup : String → LookupOutcome) :
    List (String × UserInfo) → List String → List (String × UserInfo)
  | acc, [] => acc
  | acc, user_id :: rest =>
      match lookup user_id with
      | .ok u => fetch_user_info_go lookup (dictSet acc user_id (userInfoOfObj u)) rest
      | .notOk => fetch_user_info_go lookup acc rest
      | .apiError =>
          fetch_user_info_go lookup
            (dictSet acc user_id { name := "", display_name := "Unknown User" }) rest

/-- `fetch_user_info` (src/main.py lines 244-270).  The Python `set` of
requested identifiers is modelled as a duplicate-free list in the
(unspecified) iteration order. -/
def fetch_user_info (lookup : String → LookupOutcome) (user_ids : List String) :
    List (String × UserInfo) :=
  fetch_user_info_go lookup [] user_ids

/-- Whether the `fetch_user_info` loop body stores an entry for an
identifier whose lookup has this outcome. -/
def storesEntry : LookupOutcome → Bool
  | .notOk => false
  | _ => true

/-- One page of a `conversations_history` response with `ok == True`. -/
structure HistoryPage where
  messages : List RawMessage
  has_more : Bool
  next_cursor : String
deriving Repr, DecidableEq

/-- An exception raised by a transport call: a `SlackApiError` whose
response headers may carry an integer `Retry-After` wait hint (in seconds,
per the upstream interface contract), or any other exception. -/
inductive SlackExc where
  | slackApiError (retryAfter : Option Nat)
  | otherError
deriving Repr, DecidableEq

/-- Behaviour of one `client.conversations_history` call. -/
inductive HistoryOutcome where
  | success (page : HistoryPage)
  | failure (error : String)
  | raise (e : SlackExc)
deriving Repr, DecidableEq

/-- The `while True` pagination loop of `fetch_messages_for_period`
(src/main.py lines 184-224).  `script` lists the behaviours of the
successive `conversations_history` calls; `cursor` is the current
continuation cursor, `acc` the accumulated messages, `calls` the cursors
passed to the calls made so far and `sleeps` the durations of the
`time.sleep` calls made so far.  The result is `none` when the script is
exhausted with the loop still running, and otherwise `some r` with `r` the
outcome of the loop: `Except.ok` with the final state, or `Except.error`
for an exception escaping to the caller (no code path produces one, since
the `except SlackApiError` and `except Exception` clauses cover every
raised exception). -/
def fetch_go : List HistoryOutcome → Option String → List RawMessage →
    List (Option String) → List Nat →
    Option (Except SlackExc (List RawMessage × List (Option String) × List Nat))
  | [], _, _, _, _ => none
  | o :: script, cursor, acc, calls, sleeps =>
      match o with
      | .success page =>
          if page.has_more then
            fetch_go script (some page.next_cursor) (acc ++ page.messages)
              (calls ++ [cursor]) (sleeps ++ [1])
          else
            some (.ok (acc ++ page.messages, calls ++ [cursor], sleeps))
      | .failure _ => some (.ok (acc, calls ++ [cursor], sleeps))
      | .raise (.slackApiError (some w)) =>
          fetch_go script cursor acc (calls ++ [cursor]) (sleeps ++ [w])
      | .raise (.slackApiError none) => some (.ok (acc, calls ++ [cursor], sleeps))
      | .raise .otherError => some (.ok (acc, calls ++ [cursor], sleeps))

/-- `fetch_messages_for_period` (src/main.py lines 171-226): the pagination
loop started from an empty accumulator and no cursor. -/
def fetch_messages_for_period (script : List HistoryOutcome) :
    Option (Except SlackExc (List RawMessage × List (Option String) × List Nat)) :=
  fetch_go script none [] [] []

/-- Behaviour of one `client.conversations_replies` call. -/
inductive ThreadOutcome where
  | response (ok : Bool) (messages : List RawMessage)
  | raise (e : SlackExc)
deriving Repr, DecidableEq

/-- `fetch_thread_messages` (src/main.py lines 229-241): on a response with
`ok == True` it returns `response["messages"][1:]`; a response with
`ok == False` falls through to `return []`; a raised `SlackApiError` is
caught and falls through to `return []`; any other exception is not caught
and propagates. -/
def fetch_thread_messages : ThreadOutcome → Except SlackExc (List RawMessage)
  | .response true msgs => .ok (msgs.drop 1)
  | .response false _ => .ok []
  | .raise (.slackApiError _) => .ok []
  | .raise .otherError => .error .otherError

def isLeap (y : Nat) : Bool :=
  y % 4 = 0 && (y % 100 != 0 || y % 400 = 0)

def daysInMonth (y m : Nat) : Nat :=
  if m = 2 then (if isLeap y then 29 else 28)
  else if m = 4 || m = 6 || m = 9 || m = 11 then 30
  else 31

def validDate (y m d : Nat) : Bool :=
  1 ≤ y && y ≤ 9999 && 1 ≤ m && m ≤ 12 && 1 ≤ d && d ≤ daysInMonth y m

def marchMonth (m : Nat) : Nat := if m ≤ 2 then m + 9 else m - 3

def marchDoy (m d : Nat) : Nat := (153 * marchMonth m + 2) / 5 + d - 1

def yearOfEraStart (yoe : Nat) : Nat := yoe * 365 + yoe / 4 - yoe / 100

def civilToRata (y m d : Nat) : Nat :=
  (if m ≤ 2 then y - 1 else y) / 400 * 146097
    + yearOfEraStart ((if m ≤ 2 then y - 1 else y) % 400) + marchDoy m d

def yoeOfDoe (doe : Nat) : Nat :=
  (doe - doe / 1460 + doe / 36524 - doe / 146096) / 365

def mpOfDoy (doy : Nat) : Nat := (5 * doy + 2) / 153

def dOfDoy (doy : Nat) : Nat := doy - (153 * mpOfDoy doy + 2) / 5 + 1

def mOfDoy (doy : Nat) : Nat :=
  if mpOfDoy doy < 10 then mpOfDoy doy + 3 else mpOfDoy doy - 9

def yOfEraYoe (era yoe m : Nat) : Nat :=
  if m ≤ 2 then era * 400 + yoe + 1 else era * 400 + yoe

def rataToCivil (n : Nat) : Nat × Nat × Nat :=
  (yOfEraYoe (n / 146097) (yoeOfDoe (n % 146097))
      (mOfDoy (n % 146097 - yearOfEraStart (yoeOfDoe (n % 146097)))),
   mOfDoy (n % 146097 - yearOfEraStart (yoeOfDoe (n % 146097))),
   dOfDoy (n % 146097 - yearOfEraStart (yoeOfDoe (n % 146097))))

/- Tokyo timezone model (tzdata Asia/Tokyo, 64-bit transition table):
   LMT (UTC+9:18:59 = 33539 s) before 1887-12-31 15:00 UTC (epoch -2587712400),
   JST (UTC+9:00 = 32400 s) afterwards, with JDT (UTC+10:00 = 36000 s) during
   the four 1948-1951 daylight-saving intervals. -/

def inTokyoDST (t : Int) : Prop :=
  (-683802000 ≤ t ∧ t < -672310800) ∨ (-654771600 ≤ t ∧ t < -640861200) ∨
  (-620298000 ≤ t ∧ t < -609411600) ∨ (-588848400 ≤ t ∧ t < -577962000)

instance (t : Int) : Decidable (inTokyoDST t) := by
  unfold inTokyoDST; infer_instance

def tokyoUtcOffset (t : Int) : Int :=
  if t < -2587712400 then 33539 else if inTokyoDST t then 36000 else 32400

def localizeTokyo (w : Int) : Int :=
  if tokyoUtcOffset (w - 32400) = 32400 then w - 32400
  else if tokyoUtcOffset (w - 33539) = 33539 then w - 33539
  else if tokyoUtcOffset (w - 36000) = 36000 then w - 36000
  else w - 32400

def inTokyoGap (w : Int) : Prop :=
  (-683769600 ≤ w ∧ w < -683766000) ∨ (-654739200 ≤ w ∧ w < -654735600) ∨
  (-620265600 ≤ w ∧ w < -620262000) ∨ (-588816000 ≤ w ∧ w < -588812400)

instance (w : Int) : Decidable (inTokyoGap w) := by
  unfold inTokyoGap; infer_instance

/-- Fuel-driven decimal rendering; the fuel is an upper bound on the digit
count, so `natDigits` below always supplies enough. -/
def natDigitsAux : Nat → Nat → List Char
  | 0, _ => []
  | fuel + 1, n =>
      if n < 10 then [Nat.digitChar n]
      else natDigitsAux fuel (n / 10) ++ [Nat.digitChar (n % 10)]

/-- Decimal digits of `n`, most significant first, without padding
(the glibc `strftime` rendering of `%Y`). -/
def natDigits (n : Nat) : List Char := natDigitsAux (n + 1) n

/-- Two-digit zero-padded rendering (strftime `%m`, `%d`, `%H`, `%M`, `%S`). -/
def pad2 (n : Nat) : List Char :=
  [Nat.digitChar (n / 10), Nat.digitChar (n % 10)]

def formatDateChars (y m d : Nat) : List Char :=
  natDigits y ++ '-' :: pad2 m ++ '-' :: pad2 d

def formatTimeChars (h mi s : Nat) : List Char :=
  pad2 h ++ ':' :: pad2 mi ++ ':' :: pad2 s

/-- The numeric value of an ASCII digit, `none` otherwise. -/
def digitVal (c : Char) : Option Nat :=
  if '0' ≤ c ∧ c ≤ '9' then some (c.toNat - 48) else none

/-- Take up to `k` leading ASCII digits (as values), greedily. -/
def takeDigits : Nat → List Char → List Nat × List Char
  | 0, cs => ([], cs)
  | _ + 1, [] => ([], [])
  | k + 1, c :: rest =>
      match digitVal c with
      | some a =>
          let p := takeDigits k rest
          (a :: p.1, p.2)
      | none => ([], c :: rest)

/-- strptime `%Y`: one to four digits, greedily. -/
def parseYear (cs : List Char) : Option (Nat × List Char) :=
  match takeDigits 4 cs with
  | ([], _) => none
  | (ds, rest) => some (ds.foldl (fun acc a => 10 * acc + a) 0, rest)

/-- A two-digit numeric field whose value must lie in `[lo, hi]`. -/
def parse2 (lo hi : Nat) : List Char → Option (Nat × List Char)
  | c1 :: c2 :: rest =>
      match digitVal c1, digitVal c2 with
      | some a, some b =>
          if lo ≤ 10 * a + b ∧ 10 * a + b ≤ hi then some (10 * a + b, rest) else none
      | _, _ => none
  | _ => none

/-- A one-digit numeric field whose value must lie in `[lo, hi]`. -/
def parse1 (lo hi : Nat) : List Char → Option (Nat × List Char)
  | c :: rest =>
      match digitVal c with
      | some a => if lo ≤ a ∧ a ≤ hi then some (a, rest) else none
      | none => none
  | [] => none

/-- A numeric strptime field: the two-digit alternatives of the field's
regular expression are tried first, then the one-digit alternatives. -/
def parseField (lo2 hi2 lo1 hi1 : Nat) (cs : List Char) : Option (Nat × List Char) :=
  match parse2 lo2 hi2 cs with
  | some r => some r
  | none => parse1 lo1 hi1 cs

def expectChar (c : Char) : List Char → Option (List Char)
  | c0 :: rest => if c0 = c then some rest else none
  | [] => none

/-- strptime of `%Y-%m-%d` over a whole string. -/
def parseDate (cs : List Char) : Option (Nat × Nat × Nat) :=
  (parseYear cs).bind fun p1 =>
  (expectChar '-' p1.2).bind fun cs1 =>
  (parseField 1 12 1 9 cs1).bind fun p2 =>
  (expectChar '-' p2.2).bind fun cs2 =>
  (parseField 1 31 1 9 cs2).bind fun p3 =>
  if p3.2 = [] then some (p1.1, p2.1, p3.1) else none

/-- strptime of `%H:%M:%S` over a whole string. -/
def parseTime (cs : List Char) : Option (Nat × Nat × Nat) :=
  (parseField 0 23 0 9 cs).bind fun p1 =>
  (expectChar ':' p1.2).bind fun cs1 =>
  (parseField 0 59 0 9 cs1).bind fun p2 =>
  (expectChar ':' p2.2).bind fun cs2 =>
  (parseField 0 61 0 9 cs2).bind fun p3 =>
  if p3.2 = [] then some (p1.1, p2.1, p3.1) else none

/-- Rata-seconds of the Unix epoch 1970-01-01 00:00:00 UTC
(`civilToRata 1970 1 1 * 86400`). -/
def epochRataSec : Int := 62162035200

/-- The epoch-seconds value of a naive wall-clock reading. -/
def wallOfFields (y m d h mi s : Nat) : Int :=
  ((civilToRata y m d * 86400 + (h * 3600 + mi * 60 + s) : Nat) : Int) - epochRataSec

/-- `convert_datetime_to_timestamp` (src/main.py lines 153-168):
`datetime.strptime` of the two strings under `%Y-%m-%d %H:%M:%S` (returning
`None` on a parse or range error, as the `except ValueError` clause does),
then `JST.localize` of the naive result and `.timestamp()`. -/
def convert_datetime_to_timestamp (date_str time_str : String) : Option Int :=
  (parseDate date_str.data).bind fun pd =>
  (parseTime time_str.data).bind fun pt =>
  if validDate pd.1 pd.2.1 pd.2.2 && decide (pt.2.2 ≤ 59) then
    some (localizeTokyo (wallOfFields pd.1 pd.2.1 pd.2.2 pt.1 pt.2.1 pt.2.2))
  else none

/-- Smallest representable Python datetime (0001-01-01 00:00:00) in
rata-seconds. -/
def minRataSec : Int := (civilToRata 1 1 1 * 86400 : Nat)

/-- One past the largest representable Python datetime (9999-12-31
23:59:59) in rata-seconds. -/
def maxRataSec : Int := (civilToRata 10000 1 1 * 86400 : Nat)

/-- strftime `%Y-%m-%d` / `%H:%M:%S` of a rata-second count. -/
def formatRataSec (n : Nat) : String × String :=
  (String.mk (formatDateChars (rataToCivil (n / 86400)).1
      (rataToCivil (n / 86400)).2.1 (rataToCivil (n / 86400)).2.2),
   String.mk (formatTimeChars (n % 86400 / 3600) (n % 86400 % 3600 / 60)
      (n % 86400 % 60)))

/-- `datetime.datetime.fromtimestamp(t, JST).strftime("%Y-%m-%d %H:%M:%S")`
split into its date and time halves: `fromtimestamp` raises outside the
representable range (both for the intermediate UTC datetime and for the
Tokyo wall-clock result), modelled by `none`; otherwise the wall-clock
reading `t` plus the Tokyo UTC offset at `t` is rendered. -/
def formatTokyo (t : Int) : Option (String × String) :=
  if minRataSec ≤ t + epochRataSec ∧ t + epochRataSec < maxRataSec then
    if minRataSec ≤ t + tokyoUtcOffset t + epochRataSec ∧
        t + tokyoUtcOffset t + epochRataSec < maxRataSec then
      some (formatRataSec (t + tokyoUtcOffset t + epochRataSec).toNat)
    else none
  else none

/-- Pydantic model `ThreadReply` (src/main.py lines 116-122). -/
structure ThreadReply where
  timestamp : String
  readable_time : String
  user : String
  text : String
deriving Repr, DecidableEq

/-- Pydantic model `SlackMessage` (src/main.py lines 125-134). -/
structure SlackMessage where
  timestamp : String
  readable_time : String
  user : String
  text : String
  thread_replies : List ThreadReply
deriving Repr, DecidableEq

/-- Pydantic model `SlackExport` (src/main.py lines 144-150); the `users`
dict is an insertion-ordered association list. -/
structure SlackExport where
  start_date : String
  end_date : String
  users : List (String × UserInfo)
  chat : List SlackMessage
deriving Repr, DecidableEq

/-- All leading ASCII digits of a character list (as values), and the
remainder. -/
def takeAllDigits : List Char → List Nat × List Char
  | [] => ([], [])
  | c :: rest =>
      match digitVal c with
      | some a =>
          let p := takeAllDigits rest
          (a :: p.1, p.2)
      | none => ([], c :: rest)

/-- `float(s)` of a Slack timestamp string followed by truncation to whole
seconds, as `datetime.fromtimestamp` plus `%S` formatting do for the
non-negative `digits[.digits]` values Slack produces; any other shape
raises `ValueError` (`none`). -/
def parseTsSeconds (cs : List Char) : Option Nat :=
  match takeAllDigits cs with
  | ([], _) => none
  | (ds, rest) =>
      let v := ds.foldl (fun a b => 10 * a + b) 0
      match rest with
      | [] => some v
      | '.' :: frac =>
          if frac ≠ [] ∧ frac.all (fun c => (digitVal c).isSome) then some v
          else none
      | _ => none

/-- `datetime.datetime.fromtimestamp(float(ts), pytz.UTC).astimezone(JST)
.strftime("%Y-%m-%d %H:%M:%S")` (src/main.py lines 299-305 and 311-317):
`none` models a raised `ValueError`/`OverflowError`. -/
def tsReadable (s : String) : Option String :=
  (parseTsSeconds s.data).bind fun v =>
  (formatTokyo (v : Int)).map fun p => p.1 ++ " " ++ p.2

/-- The thread-root test `msg.get("thread_ts") and msg.get("thread_ts") ==
msg.get("ts")` (src/main.py lines 283 and 296): `thread_ts` must be present
and truthy (non-empty) and equal to `ts`. -/
def isThreadRoot (msg : RawMessage) : Bool :=
  match msg.thread_ts with
  | some t => t ≠ "" && msg.ts == some t
  | none => false

/-- One `ThreadReply` record (src/main.py lines 298-309).  A failure of the
timestamp conversion is an uncaught exception (`Except.error`). -/
def build_thread_reply (r : RawMessage) : Except SlackExc ThreadReply :=
  match tsReadable (r.ts.getD "0") with
  | some rt =>
      .ok { timestamp := r.ts.getD "", readable_time := rt,
            user := r.user.getD "Unknown User", text := r.text.getD "" }
  | none => .error .otherError

/-- Maps `build_thread_reply` over a reply list, propagating errors. -/
def buildRepliesList : List RawMessage → Except SlackExc (List ThreadReply)
  | [] => .ok []
  | r :: rest =>
      (build_thread_reply r).bind fun tr =>
      (buildRepliesList rest).bind fun trs => .ok (tr :: trs)

/-- The `ThreadReply` list of one message in the assembly pass (src/main.py
lines 294-309): thread roots are re-expanded through
`fetch_thread_messages` (the second, uncached expansion), other messages
get an empty list.  Under the thread-root guard `msg["ts"]` is present, so
it is read with `msg.ts.getD ""`. -/
def build_replies (threads : String → ThreadOutcome) (msg : RawMessage) :
    Except SlackExc (List ThreadReply) :=
  if isThreadRoot msg then
    (fetch_thread_messages (threads (msg.ts.getD ""))).bind fun rs =>
      buildRepliesList rs
  else .ok []

/-- One `SlackMessage` record of the assembly pass (src/main.py lines
293-322). -/
def build_message (threads : String → ThreadOutcome) (msg : RawMessage) :
    Except SlackExc SlackMessage :=
  (build_replies threads msg).bind fun replies =>
  match tsReadable (msg.ts.getD "0") with
  | some rt =>
      .ok { timestamp := msg.ts.getD "", readable_time := rt,
            user := msg.user.getD "Unknown User", text := msg.text.getD "",
            thread_replies := replies }
  | none => .error .otherError

/-- The whole `chat_data` loop body (src/main.py lines 292-322) over an
already-reversed message list, appending in iteration order. -/
def build_chat (threads : String → ThreadOutcome) :
    List RawMessage → Except SlackExc (List SlackMessage)
  | [] => .ok []
  | msg :: rest =>
      (build_message threads msg).bind fun sm =>
      (build_chat threads rest).bind fun tail => .ok (sm :: tail)

/-- Python `set.add` on the insertion-ordered duplicate-free list model. -/
def setAdd (s : List String) (x : String) : List String :=
  if x ∈ s then s else s ++ [x]

/-- The identifier-collection loop of `save_messages_to_file` (src/main.py
lines 280-286): every top-level author identifier (or the `"Unknown User"`
default when the `user` key is missing) and, for thread roots, every reply
author identifier is added to the set. -/
def collect_user_ids (threads : String → ThreadOutcome) :
    List RawMessage → List String → Except SlackExc (List String)
  | [], acc => .ok acc
  | msg :: rest, acc =>
      if isThreadRoot msg then
        (fetch_thread_messages (threads (msg.ts.getD ""))).bind fun replies =>
          collect_user_ids threads rest
            (replies.foldl (fun a r => setAdd a (r.user.getD "Unknown User"))
              (setAdd acc (msg.user.getD "Unknown User")))
      else collect_user_ids threads rest (setAdd acc (msg.user.getD "Unknown User"))

/-- The document-assembly core of `save_messages_to_file` (src/main.py
lines 273-330): collect the identifier set, resolve it once through
`fetch_user_info`, build the chat list over the reversed message list and
assemble the `SlackExport`.  The final `json.dump` to disk and its
`except OSError` handler lie outside the model; an `Except.error` is an
exception (for example from a timestamp conversion or a thread fetch) that
the function does not catch. -/
def save_messages_to_file (messages : List RawMessage)
    (threads : String → ThreadOutcome) (lookup : String → LookupOutcome)
    (start_date end_date : String) : Except SlackExc SlackExport :=
  (collect_user_ids threads messages []).bind fun user_ids =>
  (build_chat threads messages.reverse).bind fun chat =>
  .ok { start_date := start_date, end_date := end_date,
        users := fetch_user_info lookup user_ids, chat := chat }

/-- The export decision of the `__main__` block (src/main.py lines
389-400): the fetched message list is saved only when it is non-empty
(`if all_messages:`); `none` means no output document is produced. -/
def main_export (messages : List RawMessage)
    (threads : String → ThreadOutcome) (lookup : String → LookupOutcome)
    (start_date end_date : String) : Option (Except SlackExc SlackExport) :=
  if messages.isEmpty then none
  else some (save_messages_to_file messages threads lookup start_date end_date)


theorem dictFind_dictSet_self {α : Type} (d : List (String × α)) (k : String) (v : α) :
    dictFind (dictSet d k v) k = some v := by
  induction d with
  | nil => simp [dictSet, dictFind]
  | cons p rest ih =>
      by_cases h : p.1 = k
      · simp [dictSet, dictFind, h]
      · simp [dictSet, dictFind, h, ih]

theorem dictFind_dictSet_ne {α : Type} (d : List (String × α)) (k k1 : String) (v : α)
    (h : k ≠ k1) : dictFind (dictSet d k v) k1 = dictFind d k1 := by
  induction d with
  | nil => simp [dictSet, dictFind, h]
  | cons p rest ih =>
      by_cases hp : p.1 = k
      · simp only [dictSet, hp, if_pos]
        simp [dictFind, hp, h]
      · simp [dictSet, dictFind, hp, ih]

theorem dictKeys_dictSet_new {α : Type} (d : List (String × α)) (k : String) (v : α)
    (h : k ∉ dictKeys d) : dictKeys (dictSet d k v) = dictKeys d ++ [k] := by
  induction d with
  | nil => simp [dictSet, dictKeys]
  | cons p rest ih =>
      simp only [dictKeys, List.map_cons, List.mem_cons, not_or] at h
      have hp : p.1 ≠ k := fun e => h.1 e.symm
      simp [dictSet, dictKeys, hp, ih h.2] at *
      simp [ih h.2]

/-- Frame rule: the `fetch_user_info` loop never touches the entry of an
identifier that is not among the remaining requested identifiers. -/
theorem fetch_user_info_go_frame (lookup : String → LookupOutcome) :
    ∀ (ids : List String) (acc : List (String × UserInfo)) (i : String),
      i ∉ ids → dictFind (fetch_user_info_go lookup acc ids) i = dictFind acc i := by
  intro ids
  induction ids with
  | nil => intro acc i _; rfl
  | cons j rest ih =>
      intro acc i hi
      simp only [List.mem_cons, not_or] at hi
      cases hl : lookup j with
      | ok u =>
          simp only [fetch_user_info_go, hl]
          rw [ih _ _ hi.2, dictFind_dictSet_ne _ _ _ _ fun e => hi.1 e.symm]
      | notOk => simp only [fetch_user_info_go, hl]; exact ih _ _ hi.2
      | apiError =>
          simp only [fetch_user_info_go, hl]
          rw [ih _ _ hi.2, dictFind_dictSet_ne _ _ _ _ fun e => hi.1 e.symm]

/-- The entry stored for each requested identifier, by its lookup outcome. -/
theorem fetch_user_info_go_find (lookup : String → LookupOutcome) :
    ∀ (ids : List String) (acc : List (String × UserInfo)) (i : String),
      i ∈ ids → ids.Nodup →
      dictFind (fetch_user_info_go lookup acc ids) i =
        match lookup i with
        | .ok u => some (userInfoOfObj u)
        | .notOk => dictFind acc i
        | .apiError => some { name := "", display_name := "Unknown User" } := by
  intro ids
  induction ids with
  | nil => intro acc i hi; exact absurd hi (List.not_mem_nil i)
  | cons j rest ih =>
      intro acc i hi hnd
      rcases List.mem_cons.mp hi with he | hm
      · subst he
        have hrest : i ∉ rest := (List.nodup_cons.mp hnd).1
        cases hl : lookup i with
        | ok u =>
            simp only [fetch_user_info_go, hl]
            rw [fetch_user_info_go_frame lookup rest _ i hrest, dictFind_dictSet_self]
        | notOk =>
            simp only [fetch_user_info_go, hl]
            rw [fetch_user_info_go_frame lookup rest _ i hrest]
        | apiError =>
            simp only [fetch_user_info_go, hl]
            rw [fetch_user_info_go_frame lookup rest _ i hrest, dictFind_dictSet_self]
      · have hnd2 := (List.nodup_cons.mp hnd).2
        have hji : j ≠ i := by
          rintro rfl; exact (List.nodup_cons.mp hnd).1 hm
        cases hl : lookup j with
        | ok u =>
            simp only [fetch_user_info_go, hl]
            rw [ih _ _ hm hnd2]
            cases lookup i with
            | notOk => simp [dictFind_dictSet_ne _ _ _ _ hji]
            | ok u2 => rfl
            | apiError => rfl
        | notOk => simp only [fetch_user_info_go, hl]; exact ih _ _ hm hnd2
        | apiError =>
            simp only [fetch_user_info_go, hl]
            rw [ih _ _ hm hnd2]
            cases lookup i with
            | notOk => simp [dictFind_dictSet_ne _ _ _ _ hji]
            | ok u2 => rfl
            | apiError => rfl

/-- The keys produced by the `fetch_user_info` loop: the keys already in the
accumulator followed by the requested identifiers whose lookup stores an
entry, in request order. -/
theorem fetch_user_info_go_keys (lookup : String → LookupOutcome) :
    ∀ (ids : List String) (acc : List (String × UserInfo)),
      (∀ i ∈ ids, i ∉ dictKeys acc) → ids.Nodup →
      dictKeys (fetch_user_info_go lookup acc ids)
        = dictKeys acc ++ ids.filter (fun i => storesEntry (lookup i)) := by
  intro ids
  induction ids with
  | nil => intro acc _ _; simp [fetch_user_info_go]
  | cons j rest ih =>
      intro acc hacc hnd
      have hj : j ∉ dictKeys acc := hacc j (List.mem_cons_self j rest)
      have hnd2 := (List.nodup_cons.mp hnd).2
      have hjrest : j ∉ rest := (List.nodup_cons.mp hnd).1
      cases hl : lookup j with
      | ok u =>
          simp only [fetch_user_info_go, hl]
          rw [ih (dictSet acc j (userInfoOfObj u))
              (fun i hi => by
                rw [dictKeys_dictSet_new _ _ _ hj]
                simp only [List.mem_append, List.mem_singleton, not_or]
                exact ⟨hacc i (List.mem_cons_of_mem j hi), fun e => hjrest (e ▸ hi)⟩)
              hnd2]
          rw [dictKeys_dictSet_new _ _ _ hj]
          simp [List.filter_cons, hl, storesEntry]
      | notOk =>
          simp only [fetch_user_info_go, hl]
          rw [ih acc (fun i hi => hacc i (List.mem_cons_of_mem j hi)) hnd2]
          simp [List.filter_cons, hl, storesEntry]
      | apiError =>
          simp only [fetch_user_info_go, hl]
          rw [ih (dictSet acc j { name := "", display_name := "Unknown User" })
              (fun i hi => by
                rw [dictKeys_dictSet_new _ _ _ hj]
                simp only [List.mem_append, List.mem_singleton, not_or]
                exact ⟨hacc i (List.mem_cons_of_mem j hi), fun e => hjrest (e ▸ hi)⟩)
              hnd2]
          rw [dictKeys_dictSet_new _ _ _ hj]
          simp [List.filter_cons, hl, storesEntry]

/-- C1 counterexample: at the concrete input where the single requested
identifier "U1" gets a well-formed `ok == False` response (no exception),
`fetch_user_info` returns a mapping with no entry for "U1" at all, so the
result does not contain exactly one entry per requested identifier. -/
theorem fetch_user_info_drops_notOk_entry :
    dictFind (fetch_user_info (fun _ => LookupOutcome.notOk) ["U1"]) "U1" = none := by
  decide

/-- C1 (amended): for every duplicate-free list of requested identifiers,
the mapping returned by `fetch_user_info` contains, in request order,
exactly one entry for each requested identifier whose lookup succeeds or
raises a lookup error; an identifier whose lookup returns a well-formed
unsuccessful (`ok == False`) response gets no entry. -/
theorem fetch_user_info_keys_exact (lookup : String → LookupOutcome)
    (ids : List String) (h : ids.Nodup) :
    dictKeys (fetch_user_info lookup ids)
      = ids.filter (fun i => storesEntry (lookup i)) := by
  have := fetch_user_info_go_keys lookup ids [] (by simp [dictKeys]) h
  simpa [fetch_user_info, dictKeys] using this

/-- Witness for the amended C1 theorem at a concrete input: requested
identifiers "A" (succeeds), "B" (raises) and "C" (unsuccessful response);
the mapping has exactly the keys "A" and "B". -/
theorem fetch_user_info_keys_exact_witness :
    dictKeys (fetch_user_info
        (fun i => if i = "A" then LookupOutcome.ok { name := some "alice" }
                  else if i = "B" then LookupOutcome.apiError
                  else LookupOutcome.notOk)
        ["A", "B", "C"])
      = ["A", "B"] := by
  rw [fetch_user_info_keys_exact _ _ (by decide)]
  decide

/-- C2: in a single `fetch_user_info` call over a duplicate-free list of
requested identifiers, every identifier whose lookup raises a lookup error
is mapped to the sentinel `{name: "", display_name: "Unknown User"}` while
every identifier whose lookup succeeds is still resolved normally — the
erroring lookups do not abort the batch. -/
theorem fetch_user_info_error_sentinel (lookup : String → LookupOutcome)
    (ids : List String) (h : ids.Nodup) (i : String) (hi : i ∈ ids) :
    (lookup i = LookupOutcome.apiError →
       dictFind (fetch_user_info lookup ids) i
         = some { name := "", display_name := "Unknown User" })
    ∧ (∀ u, lookup i = LookupOutcome.ok u →
       dictFind (fetch_user_info lookup ids) i = some (userInfoOfObj u)) := by
  constructor
  · intro hl
    have := fetch_user_info_go_find lookup ids [] i hi h
    rw [hl] at this
    exact this
  · intro u hl
    have := fetch_user_info_go_find lookup ids [] i hi h
    rw [hl] at this
    exact this

/-- Witness for the C2 theorem: identifier "A" succeeds and identifier "B"
raises; in the same call "B" maps to the sentinel and "A" resolves
normally. -/
theorem fetch_user_info_error_sentinel_witness :
    dictFind (fetch_user_info
        (fun i => if i = "A" then LookupOutcome.ok { name := some "alice", real_name := some "Alice" }
                  else LookupOutcome.apiError)
        ["A", "B"]) "B"
      = some { name := "", display_name := "Unknown User" } ∧
    dictFind (fetch_user_info
        (fun i => if i = "A" then LookupOutcome.ok { name := some "alice", real_name := some "Alice" }
                  else LookupOutcome.apiError)
        ["A", "B"]) "A"
      = some { name := "alice", display_name := "Alice" } := by
  constructor
  · exact (fetch_user_info_error_sentinel
      (fun i => if i = "A" then LookupOutcome.ok { name := some "alice", real_name := some "Alice" }
                else LookupOutcome.apiError)
      ["A", "B"] (by decide) "B" (by decide)).1 (by decide)
  · have := (fetch_user_info_error_sentinel
      (fun i => if i = "A" then LookupOutcome.ok { name := some "alice", real_name := some "Alice" }
                else LookupOutcome.apiError)
      ["A", "B"] (by decide) "A" (by decide)).2
      { name := some "alice", real_name := some "Alice" } (by decide)
    rw [this]
    decide

/-- C3: the pagination loop never lets an exception escape to its caller
(whenever the loop terminates within the modelled script, its result is an
`Except.ok`), and on a well-formed response reporting an error as well as
on an unexpected (non-`SlackApiError`) exception it terminates immediately
and returns exactly the messages accumulated so far. -/
theorem fetch_go_no_raise_and_terminal (script : List HistoryOutcome)
    (cursor : Option String) (acc : List RawMessage)
    (calls : List (Option String)) (sleeps : List Nat) :
    (∀ r, fetch_go script cursor acc calls sleeps = some r →
        ∃ v, r = Except.ok v)
    ∧ (∀ err rest,
        fetch_go (HistoryOutcome.failure err :: rest) cursor acc calls sleeps
          = some (Except.ok (acc, calls ++ [cursor], sleeps)))
    ∧ (∀ rest,
        fetch_go (HistoryOutcome.raise SlackExc.otherError :: rest) cursor acc calls sleeps
          = some (Except.ok (acc, calls ++ [cursor], sleeps))) := by
  refine ⟨?_, fun err rest => rfl, fun rest => rfl⟩
  induction script generalizing cursor acc calls sleeps with
  | nil => intro r hr; exact absurd hr (by simp [fetch_go])
  | cons o rest ih =>
      intro r hr
      cases o with
      | success page =>
          simp only [fetch_go] at hr
          by_cases hm : page.has_more
          · rw [if_pos hm] at hr
            exact ih _ _ _ _ _ hr
          · rw [if_neg hm] at hr
            injection hr with h
            exact ⟨_, h.symm⟩
      | failure err =>
          injection hr with h
          exact ⟨_, h.symm⟩
      | raise e =>
          cases e with
          | slackApiError hint =>
              cases hint with
              | some w => exact ih _ _ _ _ _ hr
              | none =>
                  injection hr with h
                  exact ⟨_, h.symm⟩
          | otherError =>
              injection hr with h
              exact ⟨_, h.symm⟩

/-- Witness for the C3 theorem: a script whose only call reports an error in
a well-formed response terminates the loop with an `Except.ok` carrying the
(empty) accumulation. -/
theorem fetch_go_no_raise_and_terminal_witness :
    ∃ v, (Except.ok (([] : List RawMessage), ([none] : List (Option String)),
        ([] : List Nat)) :
        Except SlackExc (List RawMessage × List (Option String) × List Nat))
      = Except.ok v :=
  (fetch_go_no_raise_and_terminal [HistoryOutcome.failure "e"] none [] [] []).1
    (Except.ok ([], [none], [])) rfl

/-- C4: a history call failing with a rate-limit `SlackApiError` carrying a
`Retry-After` hint makes the paginator sleep the hinted number of seconds
and retry with the cursor unadvanced (the loop state passed to the rest of
the script is unchanged except for the recorded sleep); a `SlackApiError`
without a hint, and an error reported in a well-formed response, terminate
pagination with the messages accumulated so far. -/
theorem fetch_go_rate_limit_retry (w : Nat) (rest : List HistoryOutcome)
    (cursor : Option String) (acc : List RawMessage)
    (calls : List (Option String)) (sleeps : List Nat) :
    (fetch_go (HistoryOutcome.raise (SlackExc.slackApiError (some w)) :: rest)
        cursor acc calls sleeps
      = fetch_go rest cursor acc (calls ++ [cursor]) (sleeps ++ [w]))
    ∧ (fetch_go (HistoryOutcome.raise (SlackExc.slackApiError none) :: rest)
        cursor acc calls sleeps
      = some (Except.ok (acc, calls ++ [cursor], sleeps)))
    ∧ (∀ err, fetch_go (HistoryOutcome.failure err :: rest) cursor acc calls sleeps
      = some (Except.ok (acc, calls ++ [cursor], sleeps))) :=
  ⟨rfl, rfl, fun _ => rfl⟩

/-- C5: for a transport returning a first page with `has_more` and a
continuation cursor and a second page without `has_more`, the paginator
returns the concatenation of the two pages' messages in the order received;
the second call is made with the first page's cursor, and exactly one
inter-page delay of one second is slept. -/
theorem fetch_two_pages (p1 p2 : List RawMessage) (c1 c2 : String) :
    fetch_messages_for_period
        [HistoryOutcome.success { messages := p1, has_more := true, next_cursor := c1 },
         HistoryOutcome.success { messages := p2, has_more := false, next_cursor := c2 }]
      = some (Except.ok (p1 ++ p2, [none, some c1], [1])) := by
  simp [fetch_messages_for_period, fetch_go]

/-- C6: `fetch_thread_messages` always drops exactly the first element (the
root) of a successful reply-chain response, and on a reported API failure —
a raised `SlackApiError` or a well-formed response with `ok == False` — it
returns the empty list without propagating any error. -/
theorem fetch_thread_messages_spec (root : RawMessage) (rs : List RawMessage) :
    fetch_thread_messages (ThreadOutcome.response true (root :: rs)) = Except.ok rs
    ∧ (∀ hint, fetch_thread_messages (ThreadOutcome.raise (SlackExc.slackApiError hint))
        = Except.ok [])
    ∧ (∀ msgs, fetch_thread_messages (ThreadOutcome.response false msgs)
        = Except.ok []) :=
  ⟨rfl, fun _ => rfl, fun _ => rfl⟩

theorem yoeOfDoe_eq (yoe doy : Nat) (h1 : yoe ≤ 399) (h2 : doy ≤ 365)
    (h3 : doy = 365 → (yoe + 1) % 4 = 0 ∧ ((yoe + 1) % 100 ≠ 0 ∨ yoe = 399)) :
    yoeOfDoe (yearOfEraStart yoe + doy) = yoe := by
  unfold yoeOfDoe yearOfEraStart
  rcases Nat.lt_or_ge doy 365 with hd | hd
  · have hd364 : doy ≤ 364 := by omega
    have he3 : (yoe * 365 + yoe / 4 - yoe / 100 + doy) / 146096 = 0 := by omega
    have he2 : (yoe * 365 + yoe / 4 - yoe / 100 + doy) / 36524 = yoe / 100 := by omega
    have he1a : yoe / 4 ≤ (yoe * 365 + yoe / 4 - yoe / 100 + doy) / 1460 := by omega
    have he1b : (yoe * 365 + yoe / 4 - yoe / 100 + doy) / 1460 ≤ yoe / 4 + 1 := by omega
    have he1c : (yoe * 365 + yoe / 4 - yoe / 100 + doy) / 1460 = yoe / 4 + 1 → 1 ≤ doy := by
      omega
    omega
  · have hd365 : doy = 365 := by omega
    rcases (h3 hd365).2 with hc | hc
    · have h4 : yoe % 4 = 3 := by omega
      have h5 : yoe % 100 ≠ 99 := by omega
      subst hd365
      have he3 : (yoe * 365 + yoe / 4 - yoe / 100 + 365) / 146096 = 0 := by omega
      have he2 : (yoe * 365 + yoe / 4 - yoe / 100 + 365) / 36524 = yoe / 100 := by omega
      have he1 : (yoe * 365 + yoe / 4 - yoe / 100 + 365) / 1460 = yoe / 4 + 1 := by omega
      omega
    · subst hc
      subst hd365
      norm_num

theorem validDate_march_bounds (y m d : Nat) (h : validDate y m d = true) :
    marchMonth m ≤ 11 ∧ 1 ≤ d
      ∧ d ≤ (153 * (marchMonth m + 1) + 2) / 5 - (153 * marchMonth m + 2) / 5
      ∧ marchDoy m d ≤ 365
      ∧ (marchDoy m d = 365 → m = 2 ∧ d = 29 ∧ isLeap y = true) := by
  simp only [validDate, Bool.and_eq_true, decide_eq_true_eq] at h
  obtain ⟨⟨⟨⟨⟨hy1, hy2⟩, hm1⟩, hm2⟩, hd1⟩, hd2⟩ := h
  interval_cases m <;>
  first
  | (norm_num [daysInMonth] at hd2
     refine ⟨by norm_num [marchMonth], hd1, ?_, ?_, ?_⟩
     · norm_num [marchMonth]; omega
     · norm_num [marchDoy, marchMonth]; omega
     · intro h365; norm_num [marchDoy, marchMonth] at h365; omega)
  | (by_cases hl : isLeap y = true
     · norm_num [daysInMonth, hl] at hd2
       refine ⟨by norm_num [marchMonth], hd1, ?_, ?_, ?_⟩
       · norm_num [marchMonth]; omega
       · norm_num [marchDoy, marchMonth]; omega
       · intro h365; norm_num [marchDoy, marchMonth] at h365
         exact ⟨rfl, by omega, hl⟩
     · norm_num [daysInMonth, hl] at hd2
       refine ⟨by norm_num [marchMonth], hd1, ?_, ?_, ?_⟩
       · norm_num [marchMonth]; omega
       · norm_num [marchDoy, marchMonth]; omega
       · intro h365; norm_num [marchDoy, marchMonth] at h365; omega)

theorem rataToCivil_civilToRata (y m d : Nat) (h : validDate y m d = true) :
    rataToCivil (civilToRata y m d) = (y, m, d) := by
  obtain ⟨hmp11, hd1, hdlen, hdoy365, hleap⟩ := validDate_march_bounds y m d h
  simp only [validDate, Bool.and_eq_true, decide_eq_true_eq] at h
  obtain ⟨⟨⟨⟨⟨hy1, hy2⟩, hm1⟩, hm2⟩, hd1b⟩, hd2⟩ := h
  set y1 := if m ≤ 2 then y - 1 else y with hy1def
  have hy1b : y1 ≤ 9999 := by rw [hy1def]; split <;> omega
  have hyoe399 : y1 % 400 ≤ 399 := by omega
  have hyes : yearOfEraStart (y1 % 400) ≤ 145731 := by
    unfold yearOfEraStart; omega
  have hdoe : yearOfEraStart (y1 % 400) + marchDoy m d ≤ 146096 := by omega
  have hsplit : civilToRata y m d
      = y1 / 400 * 146097 + (yearOfEraStart (y1 % 400) + marchDoy m d) := by
    unfold civilToRata
    rw [← hy1def]
    omega
  have hmod : civilToRata y m d % 146097
      = yearOfEraStart (y1 % 400) + marchDoy m d := by
    rw [hsplit]; omega
  have hdiv : civilToRata y m d / 146097 = y1 / 400 := by
    rw [hsplit]; omega
  have hleap2 : marchDoy m d = 365 →
      (y1 % 400 + 1) % 4 = 0 ∧ ((y1 % 400 + 1) % 100 ≠ 0 ∨ y1 % 400 = 399) := by
    intro h365
    obtain ⟨hm2', hd29, hlp⟩ := hleap h365
    simp only [isLeap, Bool.and_eq_true, Bool.or_eq_true, decide_eq_true_eq,
      bne_iff_ne, ne_eq] at hlp
    have : y1 = y - 1 := by rw [hy1def]; simp [hm2']
    omega
  have hyoerec : yoeOfDoe (yearOfEraStart (y1 % 400) + marchDoy m d) = y1 % 400 :=
    yoeOfDoe_eq (y1 % 400) (marchDoy m d) hyoe399 hdoy365 hleap2
  have hsub : yearOfEraStart (y1 % 400) + marchDoy m d - yearOfEraStart (y1 % 400)
      = marchDoy m d := by omega
  have hmp : mpOfDoy (marchDoy m d) = marchMonth m := by
    unfold mpOfDoy marchDoy
    omega
  have hmrec : mOfDoy (marchDoy m d) = m := by
    unfold mOfDoy
    rw [hmp]
    unfold marchMonth
    split_ifs with hc1 hc2 hc3 <;> omega
  have hdrec : dOfDoy (marchDoy m d) = d := by
    unfold dOfDoy
    rw [hmp]
    unfold marchDoy
    omega
  have hyrec : yOfEraYoe (y1 / 400) (y1 % 400) m = y := by
    unfold yOfEraYoe
    rw [hy1def]
    split <;> omega
  unfold rataToCivil
  rw [hmod, hdiv, hyoerec, hsub, hmrec, hdrec, hyrec]

theorem localizeTokyo_roundtrip (w : Int) (h : ¬ inTokyoGap w) :
    localizeTokyo w + tokyoUtcOffset (localizeTokyo w) = w := by
  unfold localizeTokyo tokyoUtcOffset inTokyoDST
  unfold inTokyoGap at h
  split_ifs <;> omega

theorem digitVal_digitChar (k : Nat) (h : k ≤ 9) :
    digitVal (Nat.digitChar k) = some k := by
  interval_cases k <;> decide

theorem natDigitsAux_succ (f n : Nat) :
    natDigitsAux (f + 1) n
      = if n < 10 then [Nat.digitChar n]
        else natDigitsAux f (n / 10) ++ [Nat.digitChar (n % 10)] := rfl

theorem natDigitsAux_four (f y : Nat) (h1 : 1000 ≤ y) (h2 : y ≤ 9999) :
    natDigitsAux (f + 4) y
      = [Nat.digitChar (y / 1000), Nat.digitChar (y / 100 % 10),
         Nat.digitChar (y / 10 % 10), Nat.digitChar (y % 10)] := by
  rw [show natDigitsAux (f + 4) y
      = if y < 10 then [Nat.digitChar y]
        else natDigitsAux (f + 3) (y / 10) ++ [Nat.digitChar (y % 10)]
      from natDigitsAux_succ (f + 3) y]
  rw [if_neg (by omega)]
  rw [show natDigitsAux (f + 3) (y / 10)
      = if y / 10 < 10 then [Nat.digitChar (y / 10)]
        else natDigitsAux (f + 2) (y / 10 / 10) ++ [Nat.digitChar (y / 10 % 10)]
      from natDigitsAux_succ (f + 2) (y / 10)]
  rw [if_neg (by omega)]
  rw [show natDigitsAux (f + 2) (y / 10 / 10)
      = if y / 10 / 10 < 10 then [Nat.digitChar (y / 10 / 10)]
        else natDigitsAux (f + 1) (y / 10 / 10 / 10)
          ++ [Nat.digitChar (y / 10 / 10 % 10)]
      from natDigitsAux_succ (f + 1) (y / 10 / 10)]
  rw [if_neg (by omega)]
  rw [show natDigitsAux (f + 1) (y / 10 / 10 / 10)
      = if y / 10 / 10 / 10 < 10 then [Nat.digitChar (y / 10 / 10 / 10)]
        else natDigitsAux f (y / 10 / 10 / 10 / 10)
          ++ [Nat.digitChar (y / 10 / 10 / 10 % 10)]
      from natDigitsAux_succ f (y / 10 / 10 / 10)]
  rw [if_pos (by omega)]
  rw [show y / 10 / 10 / 10 = y / 1000 by omega]
  rw [show y / 10 / 10 % 10 = y / 100 % 10 by omega]
  simp

theorem natDigits_four (y : Nat) (h1 : 1000 ≤ y) (h2 : y ≤ 9999) :
    natDigits y = [Nat.digitChar (y / 1000), Nat.digitChar (y / 100 % 10),
      Nat.digitChar (y / 10 % 10), Nat.digitChar (y % 10)] := by
  have he : natDigits y = natDigitsAux (y - 3 + 4) y := by
    unfold natDigits
    congr 1
    omega
  rw [he, natDigitsAux_four (y - 3) y h1 h2]

theorem parse2_pad2 (lo hi v : Nat) (hv : v ≤ 99) (hlo : lo ≤ v) (hhi : v ≤ hi)
    (rest : List Char) :
    parse2 lo hi (pad2 v ++ rest) = some (v, rest) := by
  have h1 : v / 10 ≤ 9 := by omega
  have h2 : v % 10 ≤ 9 := by omega
  simp only [pad2, List.cons_append, List.nil_append, parse2,
    digitVal_digitChar _ h1, digitVal_digitChar _ h2]
  rw [if_pos (by omega)]
  rw [show 10 * (v / 10) + v % 10 = v by omega]

theorem parseField_pad2 (lo2 hi2 lo1 hi1 v : Nat) (hv : v ≤ 99) (hlo : lo2 ≤ v)
    (hhi : v ≤ hi2) (rest : List Char) :
    parseField lo2 hi2 lo1 hi1 (pad2 v ++ rest) = some (v, rest) := by
  unfold parseField
  rw [parse2_pad2 lo2 hi2 v hv hlo hhi rest]

theorem parseField_pad2_nil (lo2 hi2 lo1 hi1 v : Nat) (hv : v ≤ 99) (hlo : lo2 ≤ v)
    (hhi : v ≤ hi2) :
    parseField lo2 hi2 lo1 hi1 (pad2 v) = some (v, []) := by
  have := parseField_pad2 lo2 hi2 lo1 hi1 v hv hlo hhi []
  simpa using this

theorem takeDigits_four (a b c d : Nat) (ha : a ≤ 9) (hb : b ≤ 9) (hc : c ≤ 9)
    (hd : d ≤ 9) (rest : List Char) :
    takeDigits 4 ([Nat.digitChar a, Nat.digitChar b, Nat.digitChar c,
        Nat.digitChar d] ++ rest)
      = ([a, b, c, d], rest) := by
  simp only [List.cons_append, List.nil_append, takeDigits,
    digitVal_digitChar _ ha, digitVal_digitChar _ hb, digitVal_digitChar _ hc,
    digitVal_digitChar _ hd]
  rfl

theorem parseYear_format (y : Nat) (h1 : 1000 ≤ y) (h2 : y ≤ 9999)
    (rest : List Char) :
    parseYear (natDigits y ++ rest) = some (y, rest) := by
  rw [natDigits_four y h1 h2]
  unfold parseYear
  rw [takeDigits_four _ _ _ _ (by omega) (by omega) (by omega) (by omega) rest]
  simp only [List.foldl]
  rw [show 10 * (10 * (10 * (10 * 0 + y / 1000) + y / 100 % 10) + y / 10 % 10) + y % 10
      = y by omega]

theorem parseDate_format (y m d : Nat) (hy1 : 1000 ≤ y) (hy2 : y ≤ 9999)
    (hm1 : 1 ≤ m) (hm2 : m ≤ 12) (hd1 : 1 ≤ d) (hd2 : d ≤ 31) :
    parseDate (formatDateChars y m d) = some (y, m, d) := by
  have hassoc : formatDateChars y m d
      = natDigits y ++ ('-' :: (pad2 m ++ '-' :: pad2 d)) := by
    simp [formatDateChars]
  rw [hassoc]
  unfold parseDate
  rw [parseYear_format y hy1 hy2]
  simp only [Option.some_bind]
  rw [show expectChar '-' ('-' :: (pad2 m ++ '-' :: pad2 d))
      = some (pad2 m ++ '-' :: pad2 d) by simp [expectChar]]
  simp only [Option.some_bind]
  rw [parseField_pad2 1 12 1 9 m (by omega) hm1 hm2 ('-' :: pad2 d)]
  simp only [Option.some_bind]
  rw [show expectChar '-' ('-' :: pad2 d) = some (pad2 d) by simp [expectChar]]
  simp only [Option.some_bind]
  rw [parseField_pad2_nil 1 31 1 9 d (by omega) hd1 hd2]
  simp

theorem parseTime_format (h mi s : Nat) (hh : h ≤ 23) (hmi : mi ≤ 59)
    (hs : s ≤ 61) :
    parseTime (formatTimeChars h mi s) = some (h, mi, s) := by
  have hassoc : formatTimeChars h mi s
      = pad2 h ++ (':' :: (pad2 mi ++ ':' :: pad2 s)) := by
    simp [formatTimeChars]
  rw [hassoc]
  unfold parseTime
  rw [parseField_pad2 0 23 0 9 h (by omega) (by omega) hh]
  simp only [Option.some_bind]
  rw [show expectChar ':' (':' :: (pad2 mi ++ ':' :: pad2 s))
      = some (pad2 mi ++ ':' :: pad2 s) by simp [expectChar]]
  simp only [Option.some_bind]
  rw [parseField_pad2 0 59 0 9 mi (by omega) (by omega) hmi]
  simp only [Option.some_bind]
  rw [show expectChar ':' (':' :: pad2 s) = some (pad2 s) by simp [expectChar]]
  simp only [Option.some_bind]
  rw [parseField_pad2_nil 0 61 0 9 s (by omega) (by omega) hs]
  simp

theorem tokyoUtcOffset_bounds (t : Int) :
    32400 ≤ tokyoUtcOffset t ∧ tokyoUtcOffset t ≤ 36000 := by
  unfold tokyoUtcOffset
  split_ifs <;> omega

theorem localizeTokyo_bounds (w : Int) :
    w - 36000 ≤ localizeTokyo w ∧ localizeTokyo w ≤ w - 32400 := by
  unfold localizeTokyo
  split_ifs <;> omega

theorem civilToRata_range (y m d : Nat) (h : validDate y m d = true)
    (hy : 1000 ≤ y) :
    292194 ≤ civilToRata y m d ∧ civilToRata y m d ≤ 3652364 := by
  have hd31 : daysInMonth y m ≤ 31 := by
    unfold daysInMonth; split_ifs <;> omega
  simp only [validDate, Bool.and_eq_true, decide_eq_true_eq] at h
  obtain ⟨⟨⟨⟨⟨hy1, hy2⟩, hm1⟩, hm2⟩, hd1⟩, hd2⟩ := h
  unfold civilToRata marchDoy marchMonth yearOfEraStart
  split_ifs with hm <;> omega

/-- C8 (amended): for every well-formed `YYYY-MM-DD`/`HH:MM:SS` pair whose
year has four significant digits (1000-9999, since `%Y` does not zero-pad
smaller years on this platform) and whose wall-clock reading exists in
Asia/Tokyo (it does not fall in one of the four 1948-1951 spring-forward
gaps), `convert_datetime_to_timestamp` succeeds and formatting the
resulting timestamp back in Asia/Tokyo yields the original strings. -/
theorem roundtrip_amended (y m d h mi s : Nat) (hv : validDate y m d = true)
    (hy : 1000 ≤ y) (hh : h ≤ 23) (hmi : mi ≤ 59) (hs : s ≤ 59)
    (hgap : ¬ inTokyoGap (wallOfFields y m d h mi s)) :
    ∃ t, convert_datetime_to_timestamp (String.mk (formatDateChars y m d))
          (String.mk (formatTimeChars h mi s)) = some t
      ∧ formatTokyo t = some (String.mk (formatDateChars y m d),
          String.mk (formatTimeChars h mi s)) := by
  have hvb := hv
  have hd31 : daysInMonth y m ≤ 31 := by
    unfold daysInMonth; split_ifs <;> omega
  simp only [validDate, Bool.and_eq_true, decide_eq_true_eq] at hvb
  obtain ⟨⟨⟨⟨⟨hy1, hy2⟩, hm1⟩, hm2⟩, hd1⟩, hd2⟩ := hvb
  refine ⟨localizeTokyo (wallOfFields y m d h mi s), ?_, ?_⟩
  · unfold convert_datetime_to_timestamp
    rw [show (String.mk (formatDateChars y m d)).data = formatDateChars y m d
        from rfl]
    rw [show (String.mk (formatTimeChars h mi s)).data = formatTimeChars h mi s
        from rfl]
    rw [parseDate_format y m d hy hy2 hm1 hm2 hd1 (by omega)]
    simp only [Option.some_bind]
    rw [parseTime_format h mi s hh hmi (by omega)]
    simp only [Option.some_bind]
    dsimp only
    rw [if_pos (show (validDate y m d && decide (s ≤ 59)) = true by
      simp only [Bool.and_eq_true, decide_eq_true_eq]; exact ⟨hv, hs⟩)]
  · have hrb := civilToRata_range y m d hv hy
    have hep : epochRataSec = 62162035200 := rfl
    have hmin : minRataSec = 26438400 := by decide
    have hmax : maxRataSec = 315564336000 := by decide
    have hn : wallOfFields y m d h mi s + epochRataSec
        = ((civilToRata y m d * 86400 + (h * 3600 + mi * 60 + s) : Nat) : Int) := by
      unfold wallOfFields; ring
    have htb := localizeTokyo_bounds (wallOfFields y m d h mi s)
    have hofft := tokyoUtcOffset_bounds (localizeTokyo (wallOfFields y m d h mi s))
    have hrt := localizeTokyo_roundtrip (wallOfFields y m d h mi s) hgap
    unfold formatTokyo
    rw [if_pos (by omega), if_pos (by omega)]
    rw [hrt, hn, Int.toNat_ofNat]
    unfold formatRataSec
    have hdivrec : (civilToRata y m d * 86400 + (h * 3600 + mi * 60 + s)) / 86400
        = civilToRata y m d := by omega
    have hmodrec : (civilToRata y m d * 86400 + (h * 3600 + mi * 60 + s)) % 86400
        = h * 3600 + mi * 60 + s := by omega
    rw [hdivrec, hmodrec, rataToCivil_civilToRata y m d hv]
    rw [show (h * 3600 + mi * 60 + s) / 3600 = h by omega]
    rw [show (h * 3600 + mi * 60 + s) % 3600 / 60 = mi by omega]
    rw [show (h * 3600 + mi * 60 + s) % 60 = s by omega]

/-- C8 counterexample: the well-formed pair 1948-05-02 / 00:30:00 names a
wall-clock reading inside the 1948 spring-forward gap of Asia/Tokyo;
`pytz.localize` (default `is_dst=False`) resolves it with the standard
UTC+9 offset, and formatting the resulting timestamp back yields 01:30:00,
not the original time string: the round trip is not the identity. -/
theorem roundtrip_cex :
    (convert_datetime_to_timestamp "1948-05-02" "00:30:00").bind formatTokyo
      = some ("1948-05-02", "01:30:00") ∧
    (("1948-05-02", "01:30:00") : String × String) ≠ ("1948-05-02", "00:30:00") := by
  constructor
  · decide
  · decide

/-- Witness for the amended C8 theorem at 2023-01-01 12:34:56. -/
theorem roundtrip_amended_witness :
    ∃ t, convert_datetime_to_timestamp (String.mk (formatDateChars 2023 1 1))
          (String.mk (formatTimeChars 12 34 56)) = some t
      ∧ formatTokyo t = some (String.mk (formatDateChars 2023 1 1),
          String.mk (formatTimeChars 12 34 56)) :=
  roundtrip_amended 2023 1 1 12 34 56 (by decide) (by decide) (by decide)
    (by decide) (by decide) (by decide)

theorem setAdd_mem_self (s : List String) (x : String) : x ∈ setAdd s x := by
  unfold setAdd
  split
  · assumption
  · simp

theorem setAdd_mem_of_mem (s : List String) (x y : String) (h : y ∈ s) :
    y ∈ setAdd s x := by
  unfold setAdd
  split
  · exact h
  · simp [h]

theorem foldl_setAdd_of_mem (f : RawMessage → String) :
    ∀ (rs : List RawMessage) (acc : List String) (y : String), y ∈ acc →
      y ∈ rs.foldl (fun a r => setAdd a (f r)) acc := by
  intro rs
  induction rs with
  | nil => intro acc y h; simpa using h
  | cons r rest ih =>
      intro acc y h
      simp only [List.foldl_cons]
      exact ih _ _ (setAdd_mem_of_mem _ _ _ h)

theorem foldl_setAdd_mem (f : RawMessage → String) :
    ∀ (rs : List RawMessage) (acc : List String) (r : RawMessage), r ∈ rs →
      f r ∈ rs.foldl (fun a r => setAdd a (f r)) acc := by
  intro rs
  induction rs with
  | nil => intro acc r h; exact absurd h (List.not_mem_nil r)
  | cons r0 rest ih =>
      intro acc r h
      simp only [List.foldl_cons]
      rcases List.mem_cons.mp h with he | hm
      · subst he
        exact foldl_setAdd_of_mem f rest _ _ (setAdd_mem_self _ _)
      · exact ih _ _ hm

theorem collect_user_ids_mono (threads : String → ThreadOutcome) :
    ∀ (msgs : List RawMessage) (acc ids : List String) (y : String),
      collect_user_ids threads msgs acc = Except.ok ids → y ∈ acc → y ∈ ids := by
  intro msgs
  induction msgs with
  | nil =>
      intro acc ids y h hy
      unfold collect_user_ids at h
      injection h with h2
      exact h2 ▸ hy
  | cons m rest ih =>
      intro acc ids y h hy
      unfold collect_user_ids at h
      by_cases hr : isThreadRoot m = true
      · rw [if_pos hr] at h
        cases hf : fetch_thread_messages (threads (m.ts.getD "")) with
        | error e => rw [hf] at h; simp [Except.bind] at h
        | ok rs =>
            rw [hf] at h
            simp only [Except.bind] at h
            exact ih _ _ _ h
              (foldl_setAdd_of_mem _ rs _ _ (setAdd_mem_of_mem _ _ _ hy))
      · rw [if_neg hr] at h
        exact ih _ _ _ h (setAdd_mem_of_mem _ _ _ hy)

theorem collect_user_ids_mem (threads : String → ThreadOutcome) :
    ∀ (msgs : List RawMessage) (acc ids : List String) (msg : RawMessage),
      collect_user_ids threads msgs acc = Except.ok ids → msg ∈ msgs →
      msg.user.getD "Unknown User" ∈ ids := by
  intro msgs
  induction msgs with
  | nil => intro acc ids msg h hm; exact absurd hm (List.not_mem_nil msg)
  | cons m rest ih =>
      intro acc ids msg h hm
      unfold collect_user_ids at h
      rcases List.mem_cons.mp hm with he | hmem
      · subst he
        by_cases hr : isThreadRoot msg = true
        · rw [if_pos hr] at h
          cases hf : fetch_thread_messages (threads (msg.ts.getD "")) with
          | error e => rw [hf] at h; simp [Except.bind] at h
          | ok rs =>
              rw [hf] at h
              simp only [Except.bind] at h
              exact collect_user_ids_mono threads rest _ ids _ h
                (foldl_setAdd_of_mem _ rs _ _ (setAdd_mem_self _ _))
        · rw [if_neg hr] at h
          exact collect_user_ids_mono threads rest _ ids _ h (setAdd_mem_self _ _)
      · by_cases hr : isThreadRoot m = true
        · rw [if_pos hr] at h
          cases hf : fetch_thread_messages (threads (m.ts.getD "")) with
          | error e => rw [hf] at h; simp [Except.bind] at h
          | ok rs =>
              rw [hf] at h
              simp only [Except.bind] at h
              exact ih _ _ _ h hmem
        · rw [if_neg hr] at h
          exact ih _ _ _ h hmem

theorem collect_user_ids_reply_mem (threads : String → ThreadOutcome) :
    ∀ (msgs : List RawMessage) (acc ids : List String) (msg : RawMessage)
      (rs : List RawMessage) (r : RawMessage),
      collect_user_ids threads msgs acc = Except.ok ids → msg ∈ msgs →
      isThreadRoot msg = true →
      fetch_thread_messages (threads (msg.ts.getD "")) = Except.ok rs →
      r ∈ rs →
      r.user.getD "Unknown User" ∈ ids := by
  intro msgs
  induction msgs with
  | nil => intro acc ids msg rs r h hm; exact absurd hm (List.not_mem_nil msg)
  | cons m rest ih =>
      intro acc ids msg rs r h hm hroot hf hr
      unfold collect_user_ids at h
      rcases List.mem_cons.mp hm with he | hmem
      · subst he
        rw [if_pos hroot, hf] at h
        simp only [Except.bind] at h
        exact collect_user_ids_mono threads rest _ ids _ h
          (foldl_setAdd_mem _ rs _ r hr)
      · by_cases hroot2 : isThreadRoot m = true
        · rw [if_pos hroot2] at h
          cases hf2 : fetch_thread_messages (threads (m.ts.getD "")) with
          | error e => rw [hf2] at h; simp [Except.bind] at h
          | ok rs2 =>
              rw [hf2] at h
              simp only [Except.bind] at h
              exact ih _ _ _ _ _ h hmem hroot hf hr
        · rw [if_neg hroot2] at h
          exact ih _ _ _ _ _ h hmem hroot hf hr

theorem build_message_fields (threads : String → ThreadOutcome)
    (msg : RawMessage) (sm : SlackMessage)
    (h : build_message threads msg = Except.ok sm) :
    sm.timestamp = msg.ts.getD "" ∧ sm.user = msg.user.getD "Unknown User" := by
  unfold build_message at h
  cases hb : build_replies threads msg with
  | error e => rw [hb] at h; simp [Except.bind] at h
  | ok replies =>
      rw [hb] at h
      simp only [Except.bind] at h
      cases ht : tsReadable (msg.ts.getD "0") with
      | none => rw [ht] at h; simp at h
      | some rt =>
          rw [ht] at h
          injection h with h2
          subst h2
          exact ⟨rfl, rfl⟩

theorem build_chat_spec (threads : String → ThreadOutcome) :
    ∀ (l : List RawMessage) (r : List SlackMessage),
      build_chat threads l = Except.ok r →
      r.length = l.length
        ∧ r.map (fun sm => sm.timestamp) = l.map (fun m => m.ts.getD "") := by
  intro l
  induction l with
  | nil =>
      intro r h
      unfold build_chat at h
      injection h with h2
      subst h2
      exact ⟨rfl, rfl⟩
  | cons msg rest ih =>
      intro r h
      unfold build_chat at h
      cases hm : build_message threads msg with
      | error e => rw [hm] at h; simp [Except.bind] at h
      | ok sm =>
          rw [hm] at h
          simp only [Except.bind] at h
          cases hc : build_chat threads rest with
          | error e => rw [hc] at h; simp at h
          | ok tail =>
              rw [hc] at h
              injection h with h2
              subst h2
              obtain ⟨ihl, ihm⟩ := ih tail hc
              obtain ⟨ht, _⟩ := build_message_fields threads msg sm hm
              constructor
              · simp [ihl]
              · simp [ihm, ht]

/-- C7: for every raw top-level message list, the `chat` array of the
assembled export document contains one entry per raw top-level message, in
exactly the reverse of the order the raw messages were received from the
paginator (witnessed by the per-entry timestamps). -/
theorem chat_is_reversed_messages (messages : List RawMessage)
    (threads : String → ThreadOutcome) (lookup : String → LookupOutcome)
    (sd ed : String) (doc : SlackExport)
    (h : save_messages_to_file messages threads lookup sd ed = Except.ok doc) :
    doc.chat.length = messages.length
    ∧ doc.chat.map (fun sm => sm.timestamp)
        = messages.reverse.map (fun m => m.ts.getD "") := by
  unfold save_messages_to_file at h
  cases hc : collect_user_ids threads messages [] with
  | error e => rw [hc] at h; simp [Except.bind] at h
  | ok user_ids =>
      rw [hc] at h
      simp only [Except.bind] at h
      cases hb : build_chat threads messages.reverse with
      | error e => rw [hb] at h; simp at h
      | ok chat =>
          rw [hb] at h
          injection h with h2
          subst h2
          obtain ⟨hl, hm⟩ := build_chat_spec threads messages.reverse chat hb
          exact ⟨by simpa using hl, hm⟩

/-- Witness for the C7 theorem: two raw messages with timestamps "100" and
"200" (received in that order) produce a chat of length two whose
timestamps are ["200", "100"]. -/
theorem chat_is_reversed_messages_witness :
    (SlackExport.chat
      { start_date := "s", end_date := "e", users := [],
        chat := [{ timestamp := "200", readable_time := "1970-01-01 09:03:20",
                   user := "U2", text := "b", thread_replies := [] },
                 { timestamp := "100", readable_time := "1970-01-01 09:01:40",
                   user := "U1", text := "a", thread_replies := [] }] }).length = 2
    ∧ (SlackExport.chat
      { start_date := "s", end_date := "e", users := [],
        chat := [{ timestamp := "200", readable_time := "1970-01-01 09:03:20",
                   user := "U2", text := "b", thread_replies := [] },
                 { timestamp := "100", readable_time := "1970-01-01 09:01:40",
                   user := "U1", text := "a", thread_replies := [] }] }).map
        (fun sm => sm.timestamp)
      = ([{ ts := some "100", user := some "U1", text := some "a" },
          { ts := some "200", user := some "U2", text := some "b" }]
         : List RawMessage).reverse.map (fun m => m.ts.getD "") :=
  chat_is_reversed_messages
    [{ ts := some "100", user := some "U1", text := some "a" },
     { ts := some "200", user := some "U2", text := some "b" }]
    (fun _ => ThreadOutcome.response true [])
    (fun _ => LookupOutcome.notOk) "s" "e" _ rfl

/-- C9 counterexample: when the pagination loop stops after an immediate
terminal error, the accumulated message list is empty; the `__main__` block
(`if all_messages:`) then produces no output document at all, so the empty
accumulation is not exported. -/
theorem empty_accumulation_not_exported :
    fetch_messages_for_period [HistoryOutcome.failure "fatal_error"]
      = some (Except.ok ([], [none], []))
    ∧ main_export [] (fun _ => ThreadOutcome.response true [])
        (fun _ => LookupOutcome.apiError) "s" "e" = none :=
  ⟨rfl, rfl⟩

/-- C9 (amended): whenever the top-level pagination loop stops (including
after a terminal error), a non-empty accumulated message list is exported
to the output document exactly as accumulated; the empty accumulated list
produces no output document. -/
theorem main_export_spec (messages : List RawMessage)
    (threads : String → ThreadOutcome) (lookup : String → LookupOutcome)
    (sd ed : String) :
    (messages ≠ [] →
        main_export messages threads lookup sd ed
          = some (save_messages_to_file messages threads lookup sd ed))
    ∧ (messages = [] → main_export messages threads lookup sd ed = none) := by
  constructor
  · intro h
    unfold main_export
    rw [if_neg (by simpa using h)]
  · intro h
    subst h
    rfl

/-- Witness for the amended C9 theorem: a singleton accumulation is handed
to `save_messages_to_file`. -/
theorem main_export_spec_witness :
    main_export [{ ts := some "100" }] (fun _ => ThreadOutcome.response true [])
        (fun _ => LookupOutcome.apiError) "s" "e"
      = some (save_messages_to_file [{ ts := some "100" }]
          (fun _ => ThreadOutcome.response true [])
          (fun _ => LookupOutcome.apiError) "s" "e") :=
  (main_export_spec [{ ts := some "100" }]
    (fun _ => ThreadOutcome.response true [])
    (fun _ => LookupOutcome.apiError) "s" "e").1 (by decide)

/-- C10: a top-level message or thread reply without a `user` key
contributes the literal string "Unknown User" to the identifier set that
is passed to identity resolution, and the emitted record's `user` field is
the string "Unknown User". -/
theorem unknown_user_defaults (threads : String → ThreadOutcome)
    (msgs : List RawMessage) (msg : RawMessage) (ids : List String) :
    (collect_user_ids threads msgs [] = Except.ok ids → msg ∈ msgs →
        msg.user = none → "Unknown User" ∈ ids)
    ∧ (∀ rs r, collect_user_ids threads msgs [] = Except.ok ids → msg ∈ msgs →
        isThreadRoot msg = true →
        fetch_thread_messages (threads (msg.ts.getD "")) = Except.ok rs →
        r ∈ rs → r.user = none → "Unknown User" ∈ ids)
    ∧ (∀ sm, build_message threads msg = Except.ok sm → msg.user = none →
        sm.user = "Unknown User")
    ∧ (∀ r tr, build_thread_reply r = Except.ok tr → r.user = none →
        tr.user = "Unknown User") := by
  refine ⟨?_, ?_, ?_, ?_⟩
  · intro h hm hu
    have := collect_user_ids_mem threads msgs [] ids msg h hm
    rwa [hu] at this
  · intro rs r h hm hroot hf hr hu
    have := collect_user_ids_reply_mem threads msgs [] ids msg rs r h hm hroot hf hr
    rwa [hu] at this
  · intro sm h hu
    have := (build_message_fields threads msg sm h).2
    rwa [hu] at this
  · intro r tr h hu
    unfold build_thread_reply at h
    cases ht : tsReadable (r.ts.getD "0") with
    | none => rw [ht] at h; simp at h
    | some rt =>
        rw [ht] at h
        injection h with h2
        subst h2
        simp [hu]

/-- Witness for the C10 theorem: a single user-less message yields the
identifier set ["Unknown User"] and an emitted record whose `user` field
is "Unknown User". -/
theorem unknown_user_defaults_witness :
    ("Unknown User" ∈ ["Unknown User"])
    ∧ SlackMessage.user
        { timestamp := "100", readable_time := "1970-01-01 09:01:40",
          user := "Unknown User", text := "x", thread_replies := [] }
      = "Unknown User" := by
  constructor
  · exact (unknown_user_defaults (fun _ => ThreadOutcome.response true [])
      [{ ts := some "100", text := some "x" }]
      { ts := some "100", text := some "x" } ["Unknown User"]).1
      rfl (by decide) rfl
  · exact (unknown_user_defaults (fun _ => ThreadOutcome.response true [])
      [{ ts := some "100", text := some "x" }]
      { ts := some "100", text := some "x" } ["Unknown User"]).2.2.1
      { timestamp := "100", readable_time := "1970-01-01 09:01:40",
        user := "Unknown User", text := "x", thread_replies := [] }
      rfl rfl
